import Mathlib

/-!
Verification of the logger bridge in `packages/masp-web/lib/src/utils.rs`.

The unit declares one external capability, the host console sink
`fn log(s: &str)`, and two wrappers: `console_log` forwards a string
verbatim, and `console_log_any` renders a value with the Rust `Debug`
formatter and forwards the rendered string.

The side effect of the unit is captured by a trace of sink deliveries:
every call to the external sink appends exactly one string (its argument)
to the trace, so a function of the unit is embedded as the list of
deliveries its single invocation emits, and a whole program as the
concatenation of the traces of its invocations in call order.
-/

namespace MaspWebUtils

/-- The external console sink binding, the `log` function of the
wasm_bindgen extern block: delivering a string to the host console is
modelled as emitting one sink delivery whose content is exactly the
argument string. -/
def log (s : String) : List String := [s]

/-- Embedding of `console_log` from utils.rs: `log(string);` — it hands
its argument to the sink unchanged. -/
def console_log (string : String) : List String :=
  log string

/-- Embedding of `console_log_any` from utils.rs:
`log(format!(..., string).as_str());` — it renders its argument with the
`Debug` formatter and hands the rendered string to the sink. The `Debug`
instance of the Rust type `T` is passed explicitly as the function
`debug : T → String`. -/
def console_log_any {T : Type} (debug : T → String) (string : T) : List String :=
  log (debug string)

/-- Modelled from the spec: the canonical debug rendering of an integer
(the Rust standard library `Debug` implementation for `i32`, which is not
part of this repository) is its decimal representation, so that the
spec's scenario `log_value(42)` delivers the text `42`. -/
def debug_i32 (n : Int) : String := toString n

/-- Modelled from the spec: per-character escaping used by the Rust
standard library `Debug` implementation for `str` (not part of this
repository). Tab, newline, carriage return, backslash and double quote
become two-character escape sequences; other printable characters render
as themselves. -/
def escape_debug_char (c : Char) : String :=
  if c = '\t' then "\\t"
  else if c = '\n' then "\\n"
  else if c = '\r' then "\\r"
  else if c = '\\' then "\\\\"
  else if c = '"' then "\\\""
  else String.singleton c

/-- Modelled from the spec: the canonical debug rendering of a string
(the Rust standard library `Debug` implementation for `str`, which is
not part of this repository): the string is surrounded by double quotes
and each character is escaped by `escape_debug_char`. -/
def debug_str (s : String) : String :=
  "\"" ++ String.join (s.toList.map escape_debug_char) ++ "\""

/-- A single invocation of the public surface of the bridge: either a
`console_log` call carrying a string, or a `console_log_any` call
carrying a value of some `Debug`-renderable type together with its
`Debug` instance. -/
inductive Invocation : Type 1 where
  | logText (s : String)
  | logValue (T : Type) (debug : T → String) (v : T)

/-- The rendered argument of an invocation: the string itself for
`console_log`, the debug rendering for `console_log_any`. -/
def rendered : Invocation → String
  | .logText s => s
  | .logValue _ debug v => debug v

/-- The sink trace emitted by one invocation of the bridge. -/
def execInvocation : Invocation → List String
  | .logText s => console_log s
  | .logValue _ debug v => console_log_any debug v

/-- The sink trace emitted by a sequence of invocations executed in call
order: each call is synchronous and completes before the next begins, so
the traces concatenate. -/
def runProgram : List Invocation → List String
  | [] => []
  | c :: cs => execInvocation c ++ runProgram cs

/-- The spec's description of `log_value`, taken at its words: render
the value into its debug-string representation, then forward that string
via the same path as `log_text` (that is, via `console_log`). -/
def log_value_spec {T : Type} (debug : T → String) (v : T) : List String :=
  console_log (debug v)

lemma execInvocation_eq_rendered (c : Invocation) :
    execInvocation c = [rendered c] := by
  cases c <;> rfl

lemma runProgram_eq_map (cs : List Invocation) :
    runProgram cs = cs.map rendered := by
  induction cs with
  | nil => rfl
  | cons c cs ih =>
      simp [runProgram, execInvocation_eq_rendered, ih]

lemma runProgram_append (p q : List Invocation) :
    runProgram (p ++ q) = runProgram p ++ runProgram q := by
  induction p with
  | nil => rfl
  | cons c p ih =>
      simp [runProgram, ih]

/-- C1: for every string `s`, `console_log s` produces exactly one sink
delivery, and its content is `s` verbatim — no transformation. -/
theorem console_log_verbatim_single_delivery (s : String) :
    console_log s = [s] ∧ (console_log s).length = 1 :=
  ⟨rfl, rfl⟩

/-- C2: `console_log_any` is observationally equal to `console_log`
composed with the debug rendering: for every value it matches the spec's
description of `log_value`, equals `console_log` of the rendered string,
and produces exactly one sink delivery containing the debug rendering. -/
theorem console_log_any_refines_console_log {T : Type}
    (debug : T → String) (v : T) :
    console_log_any debug v = log_value_spec debug v ∧
      console_log_any debug v = console_log (debug v) ∧
      console_log_any debug v = [debug v] :=
  ⟨rfl, rfl, rfl⟩

/-- C3: two sequential invocations produce exactly two sink deliveries,
in call order: the delivery trace is exactly the list of the two
rendered call arguments — no retries, batching or reordering. -/
theorem two_sequential_calls_two_deliveries_in_order
    (c₁ c₂ : Invocation) :
    runProgram [c₁, c₂] = [rendered c₁, rendered c₂] := by
  simp [runProgram, execInvocation_eq_rendered]

/-- C4: `console_log` applied to the empty string produces exactly one
sink delivery whose content is the empty string — the call is not
skipped. -/
theorem console_log_empty_not_skipped :
    console_log "" = [""] :=
  rfl

/-- C5: zero invocations produce zero sink deliveries, and in general
the delivery trace is exactly the rendered arguments of the invocations,
so every delivery is caused by exactly one invocation and there is no
hidden initialization output. -/
theorem no_invocations_no_deliveries :
    runProgram [] = [] ∧
      ∀ cs : List Invocation, runProgram cs = List.map rendered cs :=
  ⟨rfl, runProgram_eq_map⟩

/-- C6: neither function has an error path: for every input each one
performs no validation and completes by emitting exactly one sink
delivery — from the caller's perspective the call always succeeds. -/
theorem no_error_path {T : Type}
    (s : String) (debug : T → String) (v : T) :
    (console_log s).length = 1 ∧ (console_log_any debug v).length = 1 :=
  ⟨rfl, rfl⟩

/-- C7: the bridge is stateless: the delivery emitted by an invocation
is independent of every invocation that came before, so after any two
distinct histories the same call appends the same content. -/
theorem stateless_delivery_depends_only_on_argument
    (p q : List Invocation) (c : Invocation) :
    runProgram (p ++ [c]) = runProgram p ++ execInvocation c ∧
      (runProgram (p ++ [c])).drop (runProgram p).length =
        (runProgram (q ++ [c])).drop (runProgram q).length := by
  refine ⟨?_, ?_⟩
  · simp [runProgram_append, runProgram]
  · simp [runProgram_append, runProgram]

/-- C8: `console_log_any` applied to the integer 42 with its debug
rendering produces exactly one sink delivery whose content is the text
42. -/
theorem log_value_42 :
    console_log_any debug_i32 42 = ["42"] :=
  rfl

/-- C9: for a string argument the two entry points differ:
`console_log_any` delivers the debug rendering of the string (surrounded
by double quotes), while `console_log` delivers the string verbatim. -/
theorem string_entry_points_not_interchangeable :
    console_log_any debug_str "hello" = ["\"hello\""] ∧
      console_log "hello" = ["hello"] ∧
      console_log_any debug_str "hello" ≠ console_log "hello" := by
  refine ⟨by decide, rfl, by decide⟩

/-- C10: both functions are total: every invocation terminates and emits
exactly one sink delivery — a single formatting step followed by a
single sink call. -/
theorem bridge_functions_total (c : Invocation) :
    ∃ s : String, execInvocation c = [s] :=
  ⟨rendered c, execInvocation_eq_rendered c⟩

end MaspWebUtils
